import Mathlib

set_option autoImplicit false

namespace Cookbook

/-! # Shallow embedding of the cookbook GraphQL resolver layer

Embeds `src/cookbook/ingredients/schema.py` (filter / order / paginate
resolvers and the upsert / delete mutations) and `src/cookbook/schema.py`
(the top-level schema's own `resolve_ingredients`).  The relational store
is modelled as explicit lists of rows; resolver code is translated
statement by statement.  Exceptions raised by the Python code are
modelled as `Except.error`, and because the store autocommits each ORM
call, every mutation returns the store it leaves behind even when it
errors. -/

/-- Modelled from the spec: `cookbook/ingredients/models.py` is not among the
sources; per spec section 3 a Category has an identity and a unique display
name. -/
structure Category where
  id : Nat
  name : String
  deriving DecidableEq, Repr

/-- Modelled from the spec: `cookbook/ingredients/models.py` is not among the
sources; per spec section 3 an Ingredient has an identity, a name, optional
free-text notes and a reference to its owning Category (held here by id, the
`category_id` column). -/
structure Ingredient where
  id : Nat
  name : String
  notes : Option String
  category : Option Nat
  deriving DecidableEq, Repr

/-- The relational store backing the ORM: the two tables plus the
auto-increment counters that hand out primary keys. -/
structure Store where
  categories : List Category
  ingredients : List Ingredient
  nextCategoryId : Nat
  nextIngredientId : Nat
  deriving DecidableEq, Repr

/-- The distinct error conditions raised by the resolvers (each one a
`GraphQLError` raise site in the source; spec section 7 names the taxonomy
NotFound / ValidationError / DuplicateName / InvalidFilter). -/
inductive GqlError where
  | validationError (msg : String)
  | notFound (id : Nat)
  | duplicateName (nm : String)
  | invalidFilter
  deriving DecidableEq, Repr

instance decEqExcept {ε α : Type} [DecidableEq ε] [DecidableEq α] :
    DecidableEq (Except ε α) := fun a b =>
  match a, b with
  | Except.ok x, Except.ok y =>
    if h : x = y then isTrue (by rw [h])
    else isFalse (fun hh => h (Except.ok.inj hh))
  | Except.error x, Except.error y =>
    if h : x = y then isTrue (by rw [h])
    else isFalse (fun hh => h (Except.error.inj hh))
  | Except.ok _, Except.error _ => isFalse (fun hh => Except.noConfusion hh)
  | Except.error _, Except.ok _ => isFalse (fun hh => Except.noConfusion hh)

/-- Python truthiness of an optional string argument: `None` and `""` are
falsy (`if not name:` in the source). -/
def pyFalsyStr : Option String → Bool
  | none => true
  | some s => s == ""

/-- Python truthiness of an optional integer argument: `None` and `0` are
falsy (`if where.category_id:` in `src/cookbook/schema.py`). -/
def pyTruthyNat : Option Nat → Bool
  | none => false
  | some n => n != 0

/-- A value carried by one ORM filter keyword argument. -/
inductive FilterVal where
  | str (s : String)
  | nat (n : Nat)
  deriving DecidableEq, Repr

/-- An ORM filter keyword-argument dictionary (`filter_data` /
`filters` in the sources): keys in insertion order with their values. -/
abbrev FilterData : Type := List (String × FilterVal)

/-- Is `pat` a prefix of `hay` (character lists)? -/
def charsPrefixOf : List Char → List Char → Bool
  | [], _ => true
  | _ :: _, [] => false
  | a :: as, b :: bs => a == b && charsPrefixOf as bs

/-- Does `hay` contain `pat` as a contiguous run (character lists)? -/
def charsSub : List Char → List Char → Bool
  | [], pat => pat.isEmpty
  | h :: t, pat => charsPrefixOf pat (h :: t) || charsSub t pat

/-- Case-insensitive substring test, the ORM's `icontains` lookup. -/
def icontainsStr (s sub : String) : Bool :=
  charsSub s.toLower.data sub.toLower.data

/-- Modelled from the spec: the ORM (an external collaborator) accepts a
filter keyword only when it names a queryable field of the Ingredient model
(`cookbook/ingredients/models.py`, absent from the sources; fields per spec
section 3: id, name, notes, category) with a supported lookup, and raises
`FieldError` otherwise.  These are the full keys valid for the model. -/
def validFilterKeys : List String :=
  ["id", "name", "notes", "category", "category_id", "pk",
   "id__exact", "name__exact", "name__iexact", "name__contains", "name__icontains",
   "notes__exact", "notes__iexact", "notes__contains", "notes__icontains",
   "category__id", "category__name"]

/-- Whether the ORM accepts the filter keyword `k` for the Ingredient model. -/
def validFilterKey (k : String) : Bool :=
  validFilterKeys.contains k

/-- Row-level semantics of one filter keyword argument, for the keys the two
resolvers can build (conjunction over the dictionary happens at the caller). -/
def matchesFilter (i : Ingredient) (k : String) (v : FilterVal) : Bool :=
  match k, v with
  | "id", FilterVal.nat n => i.id == n
  | "pk", FilterVal.nat n => i.id == n
  | "name", FilterVal.str s => i.name == s
  | "name__exact", FilterVal.str s => i.name == s
  | "name__iexact", FilterVal.str s => i.name.toLower == s.toLower
  | "name__contains", FilterVal.str s => charsSub i.name.data s.data
  | "name__icontains", FilterVal.str s => icontainsStr i.name s
  | "notes__icontains", FilterVal.str s =>
      match i.notes with
      | some t => icontainsStr t s
      | none => false
  | "category_id", FilterVal.nat n => i.category == some n
  | "category__id", FilterVal.nat n => i.category == some n
  | _, _ => false

/-- `apply_filters` (src/cookbook/ingredients/schema.py lines 11-20): an
empty dictionary leaves the queryset untouched; otherwise `queryset.filter`
either keeps the rows satisfying every keyword or raises `FieldError` on an
unqueryable keyword, re-raised as the InvalidFilter `GraphQLError`. -/
def apply_filters (queryset : List Ingredient) (filter_data : FilterData) :
    Except GqlError (List Ingredient) :=
  if filter_data.isEmpty then Except.ok queryset
  else if filter_data.all (fun kv => validFilterKey kv.1) then
    Except.ok (queryset.filter (fun i => filter_data.all (fun kv => matchesFilter i kv.1 kv.2)))
  else Except.error GqlError.invalidFilter

/-- Order field enum of `IngredientOrderField` (values "name" and "id"). -/
inductive IngredientOrderField where
  | name
  | id
  deriving DecidableEq, Repr

/-- `OrderDirection` enum (ASC / DESC). -/
inductive OrderDirection where
  | ASC
  | DESC
  deriving DecidableEq, Repr

/-- `IngredientOrderInput`: a required field and a required direction. -/
structure IngredientOrderInput where
  field : IngredientOrderField
  direction : OrderDirection
  deriving DecidableEq, Repr

/-- Ascending comparison on the chosen order field. -/
def orderKeyLe (f : IngredientOrderField) (a b : Ingredient) : Bool :=
  match f with
  | IngredientOrderField.name => decide (a.name < b.name) || a.name == b.name
  | IngredientOrderField.id => a.id ≤ b.id

/-- Insert into an already sorted list (helper of the sort below). -/
def insertLe (le : Ingredient → Ingredient → Bool) (a : Ingredient) :
    List Ingredient → List Ingredient
  | [] => [a]
  | b :: t => if le a b then a :: b :: t else b :: insertLe le a t

/-- Insertion sort by a boolean comparison; models the store's
`order_by` sort (spec section 4.1 step 4: a stable sort by the named
field). -/
def sortLe (le : Ingredient → Ingredient → Bool) : List Ingredient → List Ingredient
  | [] => []
  | a :: t => insertLe le a (sortLe le t)

/-- `apply_ordering` (src/cookbook/ingredients/schema.py lines 25-32):
no order input leaves the queryset as is; otherwise sort by the named
field, reversed when the direction is DESC (the `-` prefix). -/
def apply_ordering (queryset : List Ingredient) (order_input : Option IngredientOrderInput) :
    List Ingredient :=
  match order_input with
  | none => queryset
  | some oi =>
    let le := match oi.direction with
      | OrderDirection.ASC => orderKeyLe oi.field
      | OrderDirection.DESC => fun a b => orderKeyLe oi.field b a
    sortLe le queryset

/-- `apply_pagination` (src/cookbook/ingredients/schema.py lines 37-44):
`offset = offset or 0`, then the slice `queryset[offset : offset+first]`
when `first` is given, else `queryset[offset:]`. -/
def apply_pagination {α : Type} (queryset : List α) (first : Option Nat := none)
    (offset : Option Nat := none) : List α :=
  let o := offset.getD 0
  match first with
  | some f => (queryset.drop o).take f
  | none => queryset.drop o

/-- `IngredientFilterInput` (src/cookbook/ingredients/schema.py lines 61-64):
the public filter input type of the ingredients query. -/
structure IngredientFilterInput where
  name__iexact : Option String
  name__icontains : Option String
  id : Option Nat
  deriving DecidableEq, Repr

/-- The dict comprehension of `resolve_ingredients` (lines 127-128):
the non-None fields of `where or {}` in field order. -/
def buildFilterData (whereArg : Option IngredientFilterInput) : FilterData :=
  let w := whereArg.getD { name__iexact := none, name__icontains := none, id := none }
  (match w.name__iexact with
   | some s => [("name__iexact", FilterVal.str s)]
   | none => [])
  ++ (match w.name__icontains with
      | some s => [("name__icontains", FilterVal.str s)]
      | none => [])
  ++ (match w.id with
      | some n => [("id", FilterVal.nat n)]
      | none => [])

/-- `IngredientQuery.resolve_ingredients` (src/cookbook/ingredients/schema.py
lines 122-141): filter, order, count the ordered queryset, then paginate;
the page and the pre-pagination count are returned together
(`select_related` is an eager-loading hint with no effect on rows). -/
def resolveIngredientsIQ (store : Store) (whereArg : Option IngredientFilterInput)
    (first offset : Option Nat) (order : Option IngredientOrderInput) :
    Except GqlError (List Ingredient × Nat) :=
  let queryset := store.ingredients
  let filter_data := buildFilterData whereArg
  match apply_filters queryset filter_data with
  | Except.error e => Except.error e
  | Except.ok filtered_qs =>
    let ordered_qs := apply_ordering filtered_qs order
    let total_count := ordered_qs.length
    let paginated_qs := apply_pagination ordered_qs first offset
    Except.ok (paginated_qs, total_count)

/-- `IngredientWhereInput` (src/cookbook/schema.py lines 9-12): the public
filter input type of the top-level schema's ingredients query. -/
structure IngredientWhereInput where
  name_contains : Option String
  category_id : Option Nat
  notes_contains : Option String
  deriving DecidableEq, Repr

/-- The filter dictionary built by `Query.resolve_ingredients`
(src/cookbook/schema.py lines 71-78): each field is added only when its
value is truthy. -/
def buildTopFilters (whereArg : Option IngredientWhereInput) : FilterData :=
  match whereArg with
  | none => []
  | some w =>
    (if !pyFalsyStr w.name_contains then
       [("name__icontains", FilterVal.str (w.name_contains.getD ""))]
     else [])
    ++ (if pyTruthyNat w.category_id then
          [("category_id", FilterVal.nat (w.category_id.getD 0))]
        else [])
    ++ (if !pyFalsyStr w.notes_contains then
          [("notes__icontains", FilterVal.str (w.notes_contains.getD ""))]
        else [])

/-- `apply_filters_and_pagination` (src/cookbook/schema.py lines 32-53):
filter when the dictionary is non-empty, then slice
`queryset[offset : offset+first]` or `queryset[offset:]`.  The only keys
ever passed in are the three built above, all queryable, so the ORM call
cannot raise here. -/
def apply_filters_and_pagination (queryset : List Ingredient) (filters : FilterData)
    (first : Option Nat) (offset : Nat) : List Ingredient :=
  let qs := if filters.isEmpty then queryset
            else queryset.filter (fun i => filters.all (fun kv => matchesFilter i kv.1 kv.2))
  match first with
  | some f => (qs.drop offset).take f
  | none => qs.drop offset

/-- `Query.resolve_ingredients` of the top-level schema
(src/cookbook/schema.py lines 67-87): build the truthy-field filter
dictionary, filter and paginate, then take `total_count` as the count of
the already paginated queryset. -/
def resolveIngredientsTop (store : Store) (whereArg : Option IngredientWhereInput)
    (first offset : Option Nat) : List Ingredient × Nat :=
  let ingredients := store.ingredients
  let filters := buildTopFilters whereArg
  let filtered_ingredients :=
    apply_filters_and_pagination ingredients filters first (offset.getD 0)
  (filtered_ingredients, filtered_ingredients.length)

/-- `Ingredient.objects.get(id=...)` as used by the mutations. -/
def getIngredient (s : Store) (i : Nat) : Option Ingredient :=
  s.ingredients.find? (fun x => x.id == i)

/-- `Category.objects.get_or_create(name=...)`: return the existing row or
append a fresh one under the next primary key.  The store commit happens
immediately, before the mutation finishes. -/
def getOrCreateCategory (s : Store) (n : String) : Category × Store :=
  match s.categories.find? (fun c => c.name == n) with
  | some c => (c, s)
  | none =>
    let c : Category := { id := s.nextCategoryId, name := n }
    (c, { s with categories := s.categories ++ [c],
                 nextCategoryId := s.nextCategoryId + 1 })

/-- `update_fields` (src/cookbook/ingredients/schema.py lines 47-56) applied
to the dictionary of lines 214-218: each attribute is overwritten only when
the supplied value is not None. -/
def updateFields (ing : Ingredient) (name notes : Option String)
    (category : Option Category) : Ingredient :=
  let ing := match name with
    | some v => { ing with name := v }
    | none => ing
  let ing := match notes with
    | some v => { ing with notes := some v }
    | none => ing
  match category with
  | some c => { ing with category := some c.id }
  | none => ing

/-- `ingredient.save()`: write the updated row back over the row with the
same primary key. -/
def saveIngredient (s : Store) (ing : Ingredient) : Store :=
  { s with ingredients := s.ingredients.map (fun j => if j.id == ing.id then ing else j) }

/-- The duplicate-name check of line 205:
`name and Ingredient.objects.filter(name=name).exclude(id=ingredient_id).exists()`. -/
def dupExists (ings : List Ingredient) (name : Option String) (idOpt : Option Nat) : Bool :=
  !pyFalsyStr name && ings.any (fun i => (some i.name == name) && (idOpt != some i.id))

/-- `UpsertIngredientInput` (src/cookbook/ingredients/schema.py lines
166-170): id optional, all other fields optional strings. -/
structure UpsertIngredientInput where
  id : Option Nat
  name : Option String
  notes : Option String
  category_name : Option String
  deriving DecidableEq, Repr

def nameRequiredMsg : String := "Name is required when creating a new ingredient."

def categoryRequiredMsg : String := "Category name is required when creating a new ingredient."

/-- `UpsertIngredient.mutate` (src/cookbook/ingredients/schema.py lines
179-231), with the store threaded explicitly: validation of create calls,
category get-or-create (which commits at once; its own except branch only
re-raises store failures, which the store model cannot produce),
duplicate-name check, then update-by-id or create.  On error the function
returns the store as it stands at the raise site. -/
def upsertIngredient (store : Store) (input : UpsertIngredientInput) :
    Except GqlError Ingredient × Store :=
  let ingredientId := input.id
  let name := input.name
  let notes := input.notes
  let categoryName := input.category_name
  if ingredientId.isNone && pyFalsyStr name then
    (Except.error (GqlError.validationError nameRequiredMsg), store)
  else if ingredientId.isNone && pyFalsyStr categoryName then
    (Except.error (GqlError.validationError categoryRequiredMsg), store)
  else
    let catAndStore :=
      if pyFalsyStr categoryName then (none, store)
      else
        let cs := getOrCreateCategory store (categoryName.getD "")
        (some cs.1, cs.2)
    let category := catAndStore.1
    let store1 := catAndStore.2
    if dupExists store1.ingredients name ingredientId then
      (Except.error (GqlError.duplicateName (name.getD "")), store1)
    else
      match ingredientId with
      | some iid =>
        match store1.ingredients.find? (fun i => i.id == iid) with
        | some ing =>
          let updated := updateFields ing name notes category
          (Except.ok updated, saveIngredient store1 updated)
        | none => (Except.error (GqlError.notFound iid), store1)
      | none =>
        let newIng : Ingredient :=
          { id := store1.nextIngredientId, name := name.getD "",
            notes := notes, category := category.map (fun c => c.id) }
        (Except.ok newIng,
         { store1 with ingredients := store1.ingredients ++ [newIng],
                       nextIngredientId := store1.nextIngredientId + 1 })

/-- `DeleteIngredient.mutate` (src/cookbook/ingredients/schema.py lines
240-246): load by id, delete the row, return success; raise NotFound when
the id is absent. -/
def deleteIngredient (s : Store) (i : Nat) : Except GqlError Bool × Store :=
  match s.ingredients.find? (fun x => x.id == i) with
  | some _ =>
    (Except.ok true, { s with ingredients := s.ingredients.filter (fun x => x.id != i) })
  | none => (Except.error (GqlError.notFound i), s)

/-- The spec's filter allow-list for the ingredients query, written from its
words alone: name, exact or substring match; id, exact match.  Used to
compare the specified allow-list with what the code accepts. -/
def specAllowedFilterKeys : List String :=
  ["name__iexact", "name__icontains", "id"]

/-! ## Concrete seed data (spec section 8 scenario) -/

def dairyCat : Category := { id := 1, name := "Dairy" }

def milk : Ingredient := { id := 1, name := "Milk", notes := none, category := some 1 }

def butter : Ingredient := { id := 2, name := "Butter", notes := none, category := some 1 }

def demoStore : Store :=
  { categories := [dairyCat], ingredients := [milk, butter],
    nextCategoryId := 2, nextIngredientId := 3 }

/-! ### Concrete mutation inputs used by the closed theorems -/

def ghostUpsertInput : UpsertIngredientInput :=
  { id := some 99, name := none, notes := none, category_name := some "Spices" }

def ghostIdDupInput : UpsertIngredientInput :=
  { id := some 99, name := some "Milk", notes := none, category_name := none }

def dupNoCategoryInput : UpsertIngredientInput :=
  { id := none, name := some "Milk", notes := none, category_name := none }

def noFieldsInput : UpsertIngredientInput :=
  { id := none, name := none, notes := none, category_name := none }

def noCategoryInput : UpsertIngredientInput :=
  { id := none, name := some "Cheese", notes := none, category_name := none }

def emptyNameInput : UpsertIngredientInput :=
  { id := none, name := some "", notes := none, category_name := none }

def emptyCatNameInput : UpsertIngredientInput :=
  { id := none, name := some "Cheese", notes := none, category_name := some "" }

def ghostPlainInput : UpsertIngredientInput :=
  { id := some 99, name := none, notes := none, category_name := none }

def dupWithCatInput : UpsertIngredientInput :=
  { id := none, name := some "Milk", notes := none, category_name := some "Dairy" }

def ownNameInput : UpsertIngredientInput :=
  { id := some 1, name := some "Milk", notes := some "white", category_name := none }

/-! ## Helper lemmas -/

theorem getOrCreateCategory_ingredients (s : Store) (n : String) :
    (getOrCreateCategory s n).2.ingredients = s.ingredients := by
  unfold getOrCreateCategory
  cases s.categories.find? (fun c => c.name == n) <;> rfl

@[simp] theorem pyFalsyStr_none : pyFalsyStr none = true := rfl

@[simp] theorem pyFalsyStr_some (s : String) : pyFalsyStr (some s) = (s == "") := rfl

/-! ## Claim theorems -/

/-- C1: the claim says `total_count` always equals the pre-pagination
filtered count, independent of offset/limit.  The top-level schema's
`Query.resolve_ingredients` (src/cookbook/schema.py line 86) counts the
already paginated queryset instead: on the two-row seed store with
`first = 1` it returns `total_count = 1`, while the unpaginated call
returns 2 and `IngredientQuery.resolve_ingredients`
(src/cookbook/ingredients/schema.py line 135) correctly returns 2 for the
same page. -/
theorem total_count_counts_page_in_top_schema :
    resolveIngredientsTop demoStore none none none = ([milk, butter], 2)
    ∧ resolveIngredientsTop demoStore none (some 1) none = ([milk], 1)
    ∧ resolveIngredientsIQ demoStore none (some 1) none none = Except.ok ([milk], 2) :=
  ⟨rfl, rfl, rfl⟩

/-- C2 counterexample: the claim says a failing mutation leaves the store,
including the set of Categories, exactly as it was.  But
`UpsertIngredient.mutate` runs the category get-or-create (line 198) before
the existence check (line 212): an upsert with a nonexistent id and a fresh
`category_name` fails with NotFound yet leaves the new Category behind. -/
theorem failed_upsert_creates_category :
    (upsertIngredient demoStore ghostUpsertInput).1 = Except.error (GqlError.notFound 99)
    ∧ (upsertIngredient demoStore ghostUpsertInput).2.categories ≠ demoStore.categories :=
  ⟨rfl, by decide⟩

/-- C4 counterexample: the claim says every upsert with a nonexistent id
fails with NotFound.  The duplicate-name check (line 205) runs first: with
id 99 absent but name "Milk" held by the existing ingredient 1, the call
fails with DuplicateName, not NotFound. -/
theorem missing_id_overridden_by_duplicate :
    getIngredient demoStore 99 = none
    ∧ (upsertIngredient demoStore ghostIdDupInput).1
        = Except.error (GqlError.duplicateName "Milk")
    ∧ (upsertIngredient demoStore ghostIdDupInput).1
        ≠ Except.error (GqlError.notFound 99) :=
  ⟨rfl, rfl, by decide⟩

/-- C5 counterexample: the claim says every upsert supplying a name held by
a different existing ingredient fails with DuplicateName.  Create-validation
(lines 186-192) runs first: without an id and without a category name the
call fails with ValidationError even though the name "Milk" collides. -/
theorem duplicate_overridden_by_validation :
    (milk ∈ demoStore.ingredients ∧ milk.name = "Milk")
    ∧ (upsertIngredient demoStore dupNoCategoryInput).1
        = Except.error (GqlError.validationError categoryRequiredMsg)
    ∧ (upsertIngredient demoStore dupNoCategoryInput).1
        ≠ Except.error (GqlError.duplicateName "Milk") :=
  ⟨⟨by decide, rfl⟩, rfl, by decide⟩

/-- C8 counterexample: the claim says a filter naming any field outside the
allow-list (name, id) fails with InvalidFilter.  The code only rejects
fields the model cannot query (`FieldError`, line 18): the key
`notes__icontains` is outside the allow-list yet is accepted, and the
top-level schema's public input even exposes it as `notes_contains`. -/
theorem notes_filter_outside_allowlist_accepted :
    specAllowedFilterKeys.contains "notes__icontains" = false
    ∧ apply_filters [milk, butter] [("notes__icontains", FilterVal.str "x")]
        = Except.ok []
    ∧ resolveIngredientsTop demoStore
        (some { name_contains := none, category_id := none, notes_contains := some "x" })
        none none
        = ([], 0) :=
  ⟨rfl, rfl, rfl⟩

/-- C10: in the top-level schema's `resolve_ingredients` (lines 71-78) a
falsy supplied filter value — empty string for `name_contains` or
`notes_contains`, 0 for `category_id` — is dropped, so the query behaves
exactly as if the field had not been supplied; in particular
`category_id = 0` together with the other fields absent behaves like no
filter at all. -/
theorem falsy_filter_values_dropped :
    ∀ (s : Store) (first offset cid : Option Nat) (nc nts : Option String),
      resolveIngredientsTop s
          (some { name_contains := some "", category_id := cid, notes_contains := nts })
          first offset
        = resolveIngredientsTop s
            (some { name_contains := none, category_id := cid, notes_contains := nts })
            first offset
      ∧ resolveIngredientsTop s
            (some { name_contains := nc, category_id := some 0, notes_contains := nts })
            first offset
        = resolveIngredientsTop s
            (some { name_contains := nc, category_id := none, notes_contains := nts })
            first offset
      ∧ resolveIngredientsTop s
            (some { name_contains := nc, category_id := cid, notes_contains := some "" })
            first offset
        = resolveIngredientsTop s
            (some { name_contains := nc, category_id := cid, notes_contains := none })
            first offset
      ∧ resolveIngredientsTop s
            (some { name_contains := some "", category_id := some 0, notes_contains := some "" })
            first offset
        = resolveIngredientsTop s none first offset := by
  intro s first offset cid nc nts
  exact ⟨rfl, rfl, rfl, rfl⟩

/-- C7: `apply_pagination` returns the half-open window
`[offset, offset+limit)` of the sequence (characterised position by
position), or `[offset, end)` when the limit is absent; an offset at or
past the end of the sequence yields an empty page, not an error; and the
top-level `apply_filters_and_pagination` applies the same window to its
filtered sequence. -/
theorem pagination_window :
    (∀ (l : List Ingredient) (o lim i : Nat),
        (apply_pagination l (some lim) (some o))[i]? = if i < lim then l[o + i]? else none)
    ∧ (∀ (l : List Ingredient) (o i : Nat),
        (apply_pagination l none (some o))[i]? = l[o + i]?)
    ∧ (∀ (l : List Ingredient) (first : Option Nat) (o : Nat),
        l.length ≤ o → apply_pagination l first (some o) = [])
    ∧ (∀ (qs : List Ingredient) (fd : FilterData) (first : Option Nat) (o : Nat),
        apply_filters_and_pagination qs fd first o
          = apply_pagination
              (if fd.isEmpty then qs
               else qs.filter (fun i => fd.all (fun kv => matchesFilter i kv.1 kv.2)))
              first (some o)) := by
  refine ⟨?_, ?_, ?_, ?_⟩
  · intro l o lim i
    simp [apply_pagination, List.getElem?_take, List.getElem?_drop]
  · intro l o i
    simp [apply_pagination, List.getElem?_drop]
  · intro l first o h
    cases first with
    | some f => simp [apply_pagination, List.drop_eq_nil_iff.mpr h]
    | none => simp [apply_pagination, List.drop_eq_nil_iff.mpr h]
  · intro qs fd first o
    cases first <;> rfl

/-- C7 witness: on the two-row seed list, offset 5 is past the end and the
page is empty. -/
theorem pagination_window_witness :
    ([milk, butter] : List Ingredient).length ≤ 5
    ∧ apply_pagination ([milk, butter] : List Ingredient) (some 1) (some 5) = [] :=
  ⟨by decide, pagination_window.2.2.1 [milk, butter] (some 1) 5 (by decide)⟩

/-- C3: upsert without an identifier: a missing name fails with the
name ValidationError and returns the store untouched; a missing category
name likewise fails with a ValidationError and returns the store
untouched — so no ingredient is created in either case. -/
theorem create_requires_name_and_category :
    ∀ (s : Store) (inp : UpsertIngredientInput), inp.id = none →
      (inp.name = none →
        upsertIngredient s inp
          = (Except.error (GqlError.validationError nameRequiredMsg), s))
      ∧ (inp.category_name = none →
        (upsertIngredient s inp).2 = s
        ∧ ∃ m, (upsertIngredient s inp).1 = Except.error (GqlError.validationError m)) := by
  intro s inp hid
  constructor
  · intro hname
    simp [upsertIngredient, hid, hname]
  · intro hcat
    cases hname : pyFalsyStr inp.name with
    | true =>
      refine ⟨?_, nameRequiredMsg, ?_⟩ <;> simp [upsertIngredient, hid, hname]
    | false =>
      refine ⟨?_, categoryRequiredMsg, ?_⟩ <;>
        simp [upsertIngredient, hid, hname, hcat]

/-- C3 witness: the all-absent input fails with the name ValidationError
and the name-only input fails with a ValidationError, both leaving the
seed store untouched. -/
theorem create_requires_name_and_category_witness :
    noFieldsInput.id = none
    ∧ upsertIngredient demoStore noFieldsInput
        = (Except.error (GqlError.validationError nameRequiredMsg), demoStore)
    ∧ ((upsertIngredient demoStore noCategoryInput).2 = demoStore
       ∧ ∃ m, (upsertIngredient demoStore noCategoryInput).1
           = Except.error (GqlError.validationError m)) :=
  ⟨rfl, (create_requires_name_and_category demoStore noFieldsInput rfl).1 rfl,
   (create_requires_name_and_category demoStore noCategoryInput rfl).2 rfl⟩

/-- C9: upsert without an identifier treats an empty-string name or
category name exactly like a missing one (`if not name:` is a Python
falsiness test): the call fails with the same ValidationError as the
missing-field call, leaves the store untouched, and is indistinguishable
from the call with the field absent. -/
theorem empty_string_treated_as_missing :
    ∀ (s : Store) (inp : UpsertIngredientInput), inp.id = none →
      (inp.name = some "" →
        upsertIngredient s inp
          = (Except.error (GqlError.validationError nameRequiredMsg), s)
        ∧ upsertIngredient s inp = upsertIngredient s { inp with name := none })
      ∧ (pyFalsyStr inp.name = false → inp.category_name = some "" →
        upsertIngredient s inp
          = (Except.error (GqlError.validationError categoryRequiredMsg), s)
        ∧ upsertIngredient s inp
            = upsertIngredient s { inp with category_name := none }) := by
  intro s inp hid
  constructor
  · intro hname
    constructor <;> simp [upsertIngredient, hid, hname]
  · intro hname hcat
    constructor <;> simp [upsertIngredient, hid, hname, hcat]

/-- C9 witness: empty-string name and empty-string category name each fail
with the corresponding ValidationError on the seed store. -/
theorem empty_string_treated_as_missing_witness :
    emptyNameInput.id = none ∧ emptyNameInput.name = some ""
    ∧ upsertIngredient demoStore emptyNameInput
        = (Except.error (GqlError.validationError nameRequiredMsg), demoStore)
    ∧ upsertIngredient demoStore emptyCatNameInput
        = (Except.error (GqlError.validationError categoryRequiredMsg), demoStore) :=
  ⟨rfl, rfl,
   ((empty_string_treated_as_missing demoStore emptyNameInput rfl).1 rfl).1,
   ((empty_string_treated_as_missing demoStore emptyCatNameInput rfl).2 rfl rfl).1⟩

theorem filter_id_ne_eq_erase (l : List Ingredient) (i : Nat) (ing : Ingredient)
    (hnd : (l.map (fun x => x.id)).Nodup)
    (hfind : l.find? (fun x => x.id == i) = some ing) :
    l.filter (fun x => x.id != i) = l.erase ing := by
  induction l with
  | nil => simp at hfind
  | cons hd tl ih =>
    rw [List.map_cons, List.nodup_cons] at hnd
    cases hhd : (hd.id == i) with
    | true =>
      rw [List.find?_cons, hhd] at hfind
      obtain rfl : hd = ing := Option.some.inj hfind
      have hid : hd.id = i := by simpa using hhd
      have hcond : (hd.id != i) = false := by simp [hid]
      rw [List.erase_cons_head, List.filter_cons, hcond]
      simp only [Bool.false_eq_true, if_false]
      apply List.filter_eq_self.mpr
      intro a ha
      have hane : a.id ≠ i := by
        intro hai
        exact hnd.1 (List.mem_map.mpr ⟨a, ha, by rw [hai, hid]⟩)
      simpa using hane
    | false =>
      rw [List.find?_cons, hhd] at hfind
      have hfind2 : List.find? (fun x => x.id == i) tl = some ing := hfind
      have hingid : ing.id = i := by
        have := List.find?_some hfind2
        simpa using this
      have hhdne : hd.id ≠ i := by simpa using hhd
      have hcond : (hd.id != i) = true := by simp [hhdne]
      rw [List.filter_cons, hcond]
      simp only [if_true]
      rw [List.erase_cons_tail]
      · rw [ih hnd.2 hfind2]
      · intro hbe
        exact hhdne (by rw [eq_of_beq hbe, hingid])

/-- C6: deleting a nonexistent id fails with NotFound and returns the store
unchanged; deleting an existing id returns success, leaves the Categories
untouched, keeps exactly the rows with a different id, and — when primary
keys are unique as the store guarantees — removes exactly that one
Ingredient (the old table is a permutation of the deleted row plus the new
table). -/
theorem delete_ingredient_semantics :
    (∀ (s : Store) (i : Nat), getIngredient s i = none →
        deleteIngredient s i = (Except.error (GqlError.notFound i), s))
    ∧ (∀ (s : Store) (i : Nat) (ing : Ingredient), getIngredient s i = some ing →
        (deleteIngredient s i).1 = Except.ok true
        ∧ (deleteIngredient s i).2.categories = s.categories
        ∧ (deleteIngredient s i).2.ingredients = s.ingredients.filter (fun x => x.id != i)
        ∧ ((s.ingredients.map (fun x => x.id)).Nodup →
            s.ingredients.Perm (ing :: (deleteIngredient s i).2.ingredients))) := by
  constructor
  · intro s i h
    unfold getIngredient at h
    unfold deleteIngredient
    rw [h]
  · intro s i ing h
    unfold getIngredient at h
    have h1 : (deleteIngredient s i).1 = Except.ok true := by
      unfold deleteIngredient
      rw [h]
    have h2 : (deleteIngredient s i).2.ingredients
        = s.ingredients.filter (fun x => x.id != i) := by
      unfold deleteIngredient
      rw [h]
    refine ⟨h1, ?_, h2, ?_⟩
    · unfold deleteIngredient
      rw [h]
    · intro hnd
      rw [h2, filter_id_ne_eq_erase s.ingredients i ing hnd h]
      exact List.perm_cons_erase (List.mem_of_find?_eq_some h)

/-- C6 witness: on the seed store, deleting id 99 fails with NotFound and
changes nothing; deleting id 2 succeeds and removes exactly Butter. -/
theorem delete_ingredient_semantics_witness :
    getIngredient demoStore 99 = none
    ∧ deleteIngredient demoStore 99 = (Except.error (GqlError.notFound 99), demoStore)
    ∧ getIngredient demoStore 2 = some butter
    ∧ (demoStore.ingredients.map (fun x => x.id)).Nodup
    ∧ (deleteIngredient demoStore 2).1 = Except.ok true
    ∧ demoStore.ingredients.Perm (butter :: (deleteIngredient demoStore 2).2.ingredients) :=
  ⟨rfl, delete_ingredient_semantics.1 demoStore 99 rfl, rfl, by decide,
   (delete_ingredient_semantics.2 demoStore 2 butter rfl).1,
   (delete_ingredient_semantics.2 demoStore 2 butter rfl).2.2.2 (by decide)⟩

/-- C2 (amended): a failing mutation never creates, updates or deletes an
Ingredient — the ingredient table after a failed upsert is exactly the old
one, and a failed delete returns the whole store unchanged.  (The claim's
stronger form, that the whole store including Categories is unchanged, is
refuted by `failed_upsert_creates_category`: the category get-or-create
commits before the upsert can still fail.) -/
theorem mutation_failure_preserves_ingredients :
    (∀ (s : Store) (inp : UpsertIngredientInput) (e : GqlError),
        (upsertIngredient s inp).1 = Except.error e →
        (upsertIngredient s inp).2.ingredients = s.ingredients)
    ∧ (∀ (s : Store) (i : Nat) (e : GqlError),
        (deleteIngredient s i).1 = Except.error e → (deleteIngredient s i).2 = s) := by
  constructor
  · intro s inp e
    suffices hgen : ∀ r, upsertIngredient s inp = r →
        r.1 = Except.error e → r.2.ingredients = s.ingredients by
      exact fun h => hgen _ rfl h
    intro r hr
    simp only [upsertIngredient] at hr
    repeat' split at hr
    all_goals subst hr
    all_goals intro habs
    all_goals first
      | rfl
      | exact getOrCreateCategory_ingredients s (inp.category_name.getD "")
      | simp at habs
  · intro s i e
    suffices hgen : ∀ r, deleteIngredient s i = r →
        r.1 = Except.error e → r.2 = s by
      exact fun h => hgen _ rfl h
    intro r hr
    simp only [deleteIngredient] at hr
    split at hr
    · subst hr
      intro habs
      simp at habs
    · subst hr
      intro _
      rfl

/-- C2 witness: the NotFound upsert and the NotFound delete on the seed
store leave the ingredient table (resp. the whole store) unchanged. -/
theorem mutation_failure_preserves_ingredients_witness :
    (upsertIngredient demoStore ghostUpsertInput).1 = Except.error (GqlError.notFound 99)
    ∧ (upsertIngredient demoStore ghostUpsertInput).2.ingredients = demoStore.ingredients
    ∧ (deleteIngredient demoStore 99).1 = Except.error (GqlError.notFound 99)
    ∧ (deleteIngredient demoStore 99).2 = demoStore :=
  ⟨rfl,
   mutation_failure_preserves_ingredients.1 demoStore ghostUpsertInput
     (GqlError.notFound 99) rfl,
   rfl,
   mutation_failure_preserves_ingredients.2 demoStore 99 (GqlError.notFound 99) rfl⟩

/-- C4 (amended): an upsert whose identifier matches no existing Ingredient
fails with NotFound provided the supplied name does not collide with a
different existing ingredient's name (otherwise the duplicate-name check,
which runs first, reports DuplicateName instead — see
`missing_id_overridden_by_duplicate`); the ingredient table is unchanged,
so no ingredient is created or updated. -/
theorem upsert_missing_id_fails :
    ∀ (s : Store) (inp : UpsertIngredientInput) (iid : Nat),
      inp.id = some iid → getIngredient s iid = none →
      dupExists s.ingredients inp.name inp.id = false →
      (upsertIngredient s inp).1 = Except.error (GqlError.notFound iid)
      ∧ (upsertIngredient s inp).2.ingredients = s.ingredients := by
  intro s inp iid hid hfind hdup
  unfold getIngredient at hfind
  rw [hid] at hdup
  by_cases hc3 : pyFalsyStr inp.category_name = true
  · constructor <;> simp [upsertIngredient, hid, hc3, hdup, hfind]
  · rw [Bool.not_eq_true] at hc3
    have hsi := getOrCreateCategory_ingredients s (inp.category_name.getD "")
    constructor <;> simp [upsertIngredient, hid, hc3, hsi, hdup, hfind]

/-- C4 witness: upserting id 99 with no name on the seed store fails with
NotFound 99 and leaves the ingredient table unchanged. -/
theorem upsert_missing_id_fails_witness :
    ghostPlainInput.id = some 99
    ∧ getIngredient demoStore 99 = none
    ∧ dupExists demoStore.ingredients ghostPlainInput.name ghostPlainInput.id = false
    ∧ (upsertIngredient demoStore ghostPlainInput).1 = Except.error (GqlError.notFound 99)
    ∧ (upsertIngredient demoStore ghostPlainInput).2.ingredients = demoStore.ingredients :=
  ⟨rfl, rfl, rfl,
   (upsert_missing_id_fails demoStore ghostPlainInput 99 rfl rfl rfl).1,
   (upsert_missing_id_fails demoStore ghostPlainInput 99 rfl rfl rfl).2⟩

/-- C5 (amended): an upsert supplying a name held by a different existing
ingredient fails with DuplicateName provided create-validation passes first
(an identifier is present or a non-falsy category name is supplied;
otherwise ValidationError wins — see `duplicate_overridden_by_validation`),
leaving the ingredient table unchanged; and an update that keeps the
record's own current name is not caught by the duplicate check — which
excludes the record being updated — and succeeds. -/
theorem upsert_duplicate_name_fails :
    (∀ (s : Store) (inp : UpsertIngredientInput),
        dupExists s.ingredients inp.name inp.id = true →
        (inp.id ≠ none ∨ pyFalsyStr inp.category_name = false) →
        (upsertIngredient s inp).1
          = Except.error (GqlError.duplicateName (inp.name.getD ""))
        ∧ (upsertIngredient s inp).2.ingredients = s.ingredients)
    ∧ (∀ (s : Store) (inp : UpsertIngredientInput) (iid : Nat) (ing : Ingredient),
        inp.id = some iid → getIngredient s iid = some ing →
        inp.name = some ing.name →
        (∀ j, j ∈ s.ingredients → j.name = ing.name → j.id = iid) →
        ∃ r, (upsertIngredient s inp).1 = Except.ok r) := by
  constructor
  · intro s inp hdup hval
    have hnf : pyFalsyStr inp.name = false := by
      cases hx : pyFalsyStr inp.name with
      | false => rfl
      | true =>
        have hcon : dupExists s.ingredients inp.name inp.id = false := by
          simp [dupExists, hx]
        rw [hcon] at hdup
        exact absurd hdup (by simp)
    by_cases hc3 : pyFalsyStr inp.category_name = true
    · have hida : inp.id ≠ none := by
        rcases hval with h | h
        · exact h
        · rw [hc3] at h
          exact absurd h (by simp)
      constructor <;> simp [upsertIngredient, hnf, hc3, hida, hdup]
    · rw [Bool.not_eq_true] at hc3
      have hsi := getOrCreateCategory_ingredients s (inp.category_name.getD "")
      constructor <;> simp [upsertIngredient, hnf, hc3, hsi, hdup]
  · intro s inp iid ing hid hfind hname huniq
    unfold getIngredient at hfind
    have hdupf : dupExists s.ingredients inp.name (some iid) = false := by
      rw [hname]
      simp only [dupExists]
      have hany : (s.ingredients.any
          fun i => (some i.name == some ing.name) && (some iid != some i.id)) = false := by
        rw [List.any_eq_false]
        intro j hj hcontra
        rw [Bool.and_eq_true] at hcontra
        obtain ⟨hn, hi⟩ := hcontra
        have hjn : j.name = ing.name := Option.some.inj (eq_of_beq hn)
        have hji : j.id = iid := huniq j hj hjn
        rw [hji] at hi
        simp at hi
      rw [hany, Bool.and_false]
    by_cases hc3 : pyFalsyStr inp.category_name = true
    · exact ⟨updateFields ing inp.name inp.notes none,
        by simp [upsertIngredient, hid, hc3, hdupf, hfind]⟩
    · rw [Bool.not_eq_true] at hc3
      have hsi := getOrCreateCategory_ingredients s (inp.category_name.getD "")
      exact ⟨updateFields ing inp.name inp.notes
          (some (getOrCreateCategory s (inp.category_name.getD "")).1),
        by simp [upsertIngredient, hid, hc3, hsi, hdupf, hfind]⟩

/-- C5 witness: creating "Milk" with a category on the seed store fails
with DuplicateName, while updating ingredient 1 keeping its own name
"Milk" succeeds. -/
theorem upsert_duplicate_name_fails_witness :
    dupExists demoStore.ingredients dupWithCatInput.name dupWithCatInput.id = true
    ∧ pyFalsyStr dupWithCatInput.category_name = false
    ∧ (upsertIngredient demoStore dupWithCatInput).1
        = Except.error (GqlError.duplicateName "Milk")
    ∧ ownNameInput.id = some 1
    ∧ getIngredient demoStore 1 = some milk
    ∧ ∃ r, (upsertIngredient demoStore ownNameInput).1 = Except.ok r :=
  ⟨rfl, rfl,
   (upsert_duplicate_name_fails.1 demoStore dupWithCatInput rfl (Or.inr rfl)).1,
   rfl, rfl,
   upsert_duplicate_name_fails.2 demoStore ownNameInput 1 milk rfl rfl rfl (by decide)⟩

/-- C8 (amended): every filter constructible from the public
`IngredientFilterInput` builds only the keys name__iexact, name__icontains
and id — all inside the spec's allow-list and all queryable — so the
InvalidFilter branch is unreachable for constructible filters; and
`apply_filters` rejects with InvalidFilter exactly the dictionaries
holding a key the model cannot query, a weaker guard than the spec's
name/id allow-list (see `notes_filter_outside_allowlist_accepted`). -/
theorem constructible_filters_never_invalid :
    (∀ (qs : List Ingredient) (w : IngredientFilterInput),
        ∃ l, apply_filters qs (buildFilterData (some w)) = Except.ok l)
    ∧ (∀ (w : IngredientFilterInput),
        (buildFilterData (some w)).all
          (fun kv => specAllowedFilterKeys.contains kv.1) = true)
    ∧ (∀ (qs : List Ingredient) (fd : FilterData) (kv : String × FilterVal),
        kv ∈ fd → validFilterKey kv.1 = false →
        apply_filters qs fd = Except.error GqlError.invalidFilter) := by
  refine ⟨?_, ?_, ?_⟩
  · intro qs w
    rcases w with ⟨a, b, c⟩
    cases a <;> cases b <;> cases c <;> exact ⟨_, rfl⟩
  · intro w
    rcases w with ⟨a, b, c⟩
    cases a <;> cases b <;> cases c <;> rfl
  · intro qs fd kv hmem hbad
    have hne : fd.isEmpty = false := by
      cases fd with
      | nil => simp at hmem
      | cons a t => rfl
    have hall : fd.all (fun kv => validFilterKey kv.1) = false := by
      rw [List.all_eq_false]
      exact ⟨kv, hmem, by simp [hbad]⟩
    simp [apply_filters, hne, hall]

/-- C8 witness: a constructible name filter is accepted, while the
unqueryable key "bogus" is rejected with InvalidFilter. -/
theorem constructible_filters_never_invalid_witness :
    (∃ l, apply_filters [milk, butter]
        (buildFilterData
          (some { name__iexact := some "milk", name__icontains := none, id := none }))
        = Except.ok l)
    ∧ ("bogus", FilterVal.nat 1) ∈ [(("bogus", FilterVal.nat 1))]
    ∧ validFilterKey "bogus" = false
    ∧ apply_filters [milk, butter] [("bogus", FilterVal.nat 1)]
        = Except.error GqlError.invalidFilter :=
  ⟨constructible_filters_never_invalid.1 [milk, butter]
     { name__iexact := some "milk", name__icontains := none, id := none },
   by simp, rfl,
   constructible_filters_never_invalid.2.2 [milk, butter]
     [("bogus", FilterVal.nat 1)] ("bogus", FilterVal.nat 1) (by simp) rfl⟩

end Cookbook
